import Mathlib

/-!
Verification development for the speech-command interpreter of the Brand
Bloom toolkit (file enhanced_speech_processor.py).  The Python class
EnhancedSpeechProcessor is shallowly embedded below: its regular
expressions are encoded as abstract syntax trees evaluated by a small
backtracking matcher with the semantics of Python re.search under the
IGNORECASE flag, and every handler, pattern table, page context and
processing routine is translated function by function from the source.
The AI branch of the orchestrator (the Gemini call) is an external
network effect and is not modelled; the embedded orchestrator follows the
deterministic path taken when no model handle is configured, which is
also the path every claim below is about.  Wall-clock metadata
(processed_at) is omitted.
-/

namespace BrandBloom

/-! ### Characters and low-level string helpers -/

/-- Python whitespace class for the re module (ASCII part), used by the
patterns and by str.strip. -/
def isSpaceP (c : Char) : Bool :=
  c == ' ' || c == '\t' || c == '\n' || c == '\r' || c == '\x0b' || c == '\x0c'

/-- Python word-constituent class (ASCII part of the re module's word
class): letters, digits and underscore. -/
def isWordChar (c : Char) : Bool :=
  c.isAlphanum || c == '_'

/-- A dot in a Python pattern: any character except a newline. -/
def isDotChar (c : Char) : Bool :=
  c != '\n'

/-- Does the list `l` start with the (lowercase) literal `pat`, comparing
case-insensitively? Mirrors literal matching under re.IGNORECASE. -/
def litStartsAt : List Char → List Char → Bool
  | [], _ => true
  | _ :: _, [] => false
  | p :: ps, c :: cs => (c.toLower == p) && litStartsAt ps cs

/-- Does the list `l` start with the list `pat`, compared exactly? -/
def startsAt : List Char → List Char → Bool
  | [], _ => true
  | _ :: _, [] => false
  | p :: ps, c :: cs => (c == p) && startsAt ps cs

/-- Substring containment on character lists: Python's `pat in text`. -/
def containsSubL (text pat : List Char) : Bool :=
  (List.range (text.length + 1)).any (fun i => startsAt pat (text.drop i))

/-- Substring containment on strings: Python's `pat in text`. -/
def containsSub (text pat : String) : Bool :=
  containsSubL text.toList pat.toList

/-- Python str.lower restricted to the characters appearing here. -/
def lowerStr (s : String) : String :=
  String.mk (s.toList.map Char.toLower)

/-- Python str.strip on a character list: drop whitespace from both ends. -/
def pyStrip (l : List Char) : List Char :=
  ((l.dropWhile isSpaceP).reverse.dropWhile isSpaceP).reverse

/-- Python str.strip on strings. -/
def stripStr (s : String) : String :=
  String.mk (pyStrip s.toList)

/-- Python str.replace of a single space by the empty string. -/
def removeSpaces (s : String) : String :=
  String.mk (s.toList.filter (fun c => c != ' '))

/-! ### A small backtracking regex engine

The twelve fallback patterns of the processor use only: literals,
alternation, concatenation, greedy option, greedy and lazy one-or-more
over a single character class, numbered capturing groups, and the end
anchor.  The engine below evaluates exactly this fragment with Python
backtracking semantics: leftmost starting position first, alternatives
left to right, greedy repetition longest first, lazy repetition shortest
first. -/

/-- Abstract syntax of the regex fragment used by the fallback patterns.
Literals are stored lowercase and matched case-insensitively
(IGNORECASE).  `plus p lz` is `+` over the character class `p`, lazy when
`lz` is true. -/
inductive RE where
  | eps : RE
  | lit : List Char → RE
  | plus : (Char → Bool) → Bool → RE
  | alt : RE → RE → RE
  | cat : RE → RE → RE
  | opt : RE → RE
  | group : Nat → RE → RE
  | endAnchor : RE

/-- Captured group spans: group number, start offset, end offset. -/
abbrev Groups := List (Nat × Nat × Nat)

/-- Length of the maximal run of characters satisfying `p`. -/
def classRun (p : Char → Bool) : List Char → Nat
  | [] => 0
  | c :: cs => if p c then classRun p cs + 1 else 0

/-- Candidate lengths for a greedy `+`: longest first, down to 1. -/
def greedyLens (n : Nat) : List Nat :=
  (List.range n).map (fun k => n - k)

/-- Candidate lengths for a lazy `+`: shortest first, 1 up to n. -/
def lazyLens (n : Nat) : List Nat :=
  (List.range n).map (fun k => k + 1)

/-- First non-none value of `f` over a list, in order. -/
def firstSomeN {α : Type} (f : Nat → Option α) : List Nat → Option α
  | [] => none
  | i :: is =>
    match f i with
    | some r => some r
    | none => firstSomeN f is

/-- Backtracking matcher in continuation-passing style.  `reMatch s re i
g k` tries to match `re` in `s` starting at offset `i` with current
captures `g`; on each candidate end point it calls the continuation `k`,
and the first success wins.  Candidate order realises the Python
backtracking priorities described above. -/
def reMatch (s : List Char) :
    RE → Nat → Groups → (Nat → Groups → Option Groups) → Option Groups
  | .eps, i, g, k => k i g
  | .lit l, i, g, k =>
    if litStartsAt l (s.drop i) then k (i + l.length) g else none
  | .plus p lz, i, g, k =>
    firstSomeN (fun j => k (i + j) g)
      (if lz then lazyLens (classRun p (s.drop i))
       else greedyLens (classRun p (s.drop i)))
  | .alt a b, i, g, k =>
    match reMatch s a i g k with
    | some r => some r
    | none => reMatch s b i g k
  | .cat a b, i, g, k =>
    reMatch s a i g (fun j g2 => reMatch s b j g2 k)
  | .opt r, i, g, k =>
    match reMatch s r i g k with
    | some r2 => some r2
    | none => k i g
  | .group n r, i, g, k =>
    reMatch s r i g (fun j g2 => k j ((n, i, j) :: g2))
  | .endAnchor, i, g, k =>
    if i == s.length || (i + 1 == s.length && s.drop i == ['\n']) then
      k i g
    else none

/-- Python re.search: try each starting offset from the left; at the
first offset where the pattern matches, return the captures of the
highest-priority match there. -/
def reSearch (re : RE) (s : List Char) : Option Groups :=
  firstSomeN (fun i => reMatch s re i [] (fun _ g => some g))
    (List.range (s.length + 1))

/-- The text of capturing group `n` of a match over `s`, as Python
match.group(n): none when the group did not participate in the match. -/
def pmGroup (s : List Char) (g : Groups) (n : Nat) : Option String :=
  (g.find? (fun e => e.1 == n)).map
    (fun e => String.mk ((s.drop e.2.1).take (e.2.2 - e.2.1)))

/-- Python truthiness of an optional capture: present and non-empty. -/
def truthyOpt : Option String → Bool
  | none => false
  | some s => !(s == "")

/-! ### Regex combinator shorthands (no notation, plain definitions) -/

/-- A case-insensitive literal from a lowercase string. -/
def rlit (s : String) : RE := RE.lit s.toList

/-- Concatenation of a list of regexes. -/
def rcat (l : List RE) : RE := l.foldr RE.cat RE.eps

/-- Alternation of a list of regexes, left to right. -/
def raltL : List RE → RE
  | [] => RE.lit ['\x00']
  | [r] => r
  | r :: rs => RE.alt r (raltL rs)

/-- Alternation of case-insensitive literals, left to right. -/
def raltS (l : List String) : RE := raltL (l.map rlit)

/-- Greedy one-or-more whitespace. -/
def rws : RE := RE.plus isSpaceP false

/-- Lazy dot-plus, the Python idiom for a minimal capture. -/
def rdotLazy : RE := RE.plus isDotChar true

/-- Greedy dot-plus. -/
def rdotGreedy : RE := RE.plus isDotChar false

/-- The tail piece of several patterns: a literal dot or end of string. -/
def rdotOrEnd : RE := RE.alt (rlit ".") RE.endAnchor

/-! ### The twelve fallback patterns (_load_fallback_patterns) -/

/-- The seven known page names of the first navigation pattern. -/
def navNames : List String :=
  ["website", "email", "feedback", "poster", "sales", "dashboard", "profile"]

/-- Navigation pattern 1. -/
def navP1 : RE :=
  rcat [raltS ["go to", "open", "show", "navigate to", "switch to"], rws,
        RE.group 1 (raltS navNames)]

/-- Navigation pattern 2: a name of word characters and spaces before the
word tool or page. -/
def navP2 : RE :=
  rcat [raltS ["show me", "open"], rws, rlit "the", rws,
        RE.group 1 (RE.plus (fun c => isWordChar c || isSpaceP c) false), rws,
        raltS ["tool", "page"]]

/-- Website creation pattern 1. -/
def websiteP1 : RE :=
  rcat [raltS ["create", "make", "build", "generate"], rws,
        RE.opt (rcat [rlit "a", rws]), rlit "website", rws, rlit "for", rws,
        RE.group 1 rdotLazy,
        RE.opt (rcat [rws, raltS ["called", "named"], rws, RE.group 2 rdotLazy]),
        rdotOrEnd]

/-- Website creation pattern 2. -/
def websiteP2 : RE :=
  rcat [raltS ["i want", "i need"], rws, RE.opt (rcat [rlit "a", rws]),
        RE.group 1 rdotLazy, rws, rlit "website", rws, rlit "for", rws,
        RE.group 2 rdotLazy, rdotOrEnd]

/-- Email creation pattern 1. -/
def emailP1 : RE :=
  rcat [raltS ["create", "generate", "draft", "write"], rws,
        RE.opt (rcat [rlit "a", rws]), RE.group 1 rdotLazy, rws,
        rlit "email", rws, raltS ["for", "to"], rws,
        RE.group 2 rdotLazy, rdotOrEnd]

/-- Email creation pattern 2. -/
def emailP2 : RE :=
  rcat [raltS ["send", "write"], rws,
        RE.opt (rcat [rlit "a", RE.opt (rlit "n"), rws]),
        rlit "email", rws, raltS ["about", "regarding"], rws,
        RE.group 1 rdotLazy, rdotOrEnd]

/-- Feedback analysis pattern 1. -/
def feedbackP1 : RE :=
  rcat [raltS ["analyze", "check", "review"], rws,
        RE.opt (rcat [rlit "this", rws]), rlit "feedback",
        RE.plus (fun c => c == ':' || isSpaceP c) false,
        RE.group 1 rdotGreedy]

/-- Feedback analysis pattern 2. -/
def feedbackP2 : RE :=
  rcat [raltS ["sentiment", "analysis", "analyze"],
        RE.plus (fun c => c == ':' || isSpaceP c) false,
        RE.group 1 rdotGreedy]

/-- Poster creation pattern 1. -/
def posterP1 : RE :=
  rcat [raltS ["create", "make", "design"], rws,
        RE.opt (rcat [rlit "a", rws]), rlit "poster", rws, rlit "for", rws,
        RE.group 1 rdotLazy,
        RE.opt (rcat [rws, raltS ["called", "titled"], rws, RE.group 2 rdotLazy]),
        rdotOrEnd]

/-- Poster creation pattern 2. -/
def posterP2 : RE :=
  rcat [raltS ["make", "create"], rws, RE.opt (rcat [rlit "a", rws]),
        RE.group 1 rdotLazy, rws, rlit "poster",
        RE.opt (rcat [rws, rlit "for", rws, RE.group 2 rdotLazy]),
        rdotOrEnd]

/-- Generic field-filling pattern 1. -/
def fieldP1 : RE :=
  rcat [raltS ["fill", "enter", "set"], rws, RE.group 1 rdotLazy, rws,
        raltS ["with", "to", "as"], rws, RE.group 2 rdotGreedy]

/-- Generic field-filling pattern 2. -/
def fieldP2 : RE :=
  rcat [RE.opt (rcat [rlit "my", rws]), RE.group 1 rdotLazy, rws,
        rlit "is", rws, RE.group 2 rdotGreedy]

/-! ### Data model: instructions and results -/

/-- The tool_execution block of an instruction; auto_submit is optional
in the dict (the validator fills the page default in when absent). -/
structure ToolExecution where
  tool : String
  auto_submit : Option Bool
deriving DecidableEq, Repr

/-- A UI instruction as produced by the processor: the Python dict with
its optional keys made explicit.  An absent fields key is modelled as the
empty list; list order is the dict insertion order. -/
structure Instruction where
  action : Option String
  confidence : Option ℚ
  fields : List (String × String)
  navigation : Option String
  tool_execution : Option ToolExecution
  message : String
deriving DecidableEq, Repr

/-- The outer result dict of the processor. -/
structure SpeechResult where
  success : Bool
  instructions : Instruction
  confidence : Option ℚ
  error : Option String
  processed_by : Option String
  original_transcript : Option String
deriving DecidableEq, Repr

/-- An instruction with nothing set: the base the builders extend. -/
def emptyInstruction : Instruction :=
  { action := none, confidence := none, fields := [], navigation := none,
    tool_execution := none, message := "" }

/-! ### Page contexts (_setup_page_contexts) -/

/-- The configuration of one form field. -/
structure FieldConfig where
  ftype : String
  options : List String
  keywords : List (String × List String)
  required : Bool
deriving DecidableEq, Repr

/-- A text field with no options. -/
def textField (req : Bool) : FieldConfig :=
  { ftype := "text", options := [], keywords := [], required := req }

/-- A textarea field with no options. -/
def textareaField (req : Bool) : FieldConfig :=
  { ftype := "textarea", options := [], keywords := [], required := req }

/-- A select field with its options and keyword table. -/
def selectField (opts : List String) (kws : List (String × List String)) :
    FieldConfig :=
  { ftype := "select", options := opts, keywords := kws, required := false }

/-- The per-page context: field schema and the auto-submit default. -/
structure PageContext where
  fields : List (String × FieldConfig)
  auto_submit : Bool
deriving DecidableEq, Repr

/-- Field schema of the website page. -/
def websiteFieldsCtx : List (String × FieldConfig) :=
  [("websiteType", selectField
      ["business", "portfolio", "ecommerce", "blog", "restaurant", "services"]
      [("business", ["business", "company", "corporate", "office"]),
       ("restaurant", ["restaurant", "cafe", "food", "dining", "kitchen"]),
       ("portfolio", ["portfolio", "personal", "showcase", "work"]),
       ("ecommerce", ["store", "shop", "ecommerce", "selling", "products"]),
       ("services", ["services", "consulting", "professional", "agency"]),
       ("blog", ["blog", "writing", "articles", "content"])]),
   ("businessName", textField true),
   ("businessDescription", textareaField false),
   ("keyServices", textField false),
   ("targetAudience", textField false),
   ("colorScheme", selectField
      ["professional", "modern", "warm", "nature", "creative"]
      [("professional", ["professional", "business", "corporate", "formal"]),
       ("modern", ["modern", "contemporary", "sleek", "minimalist"]),
       ("warm", ["warm", "friendly", "welcoming", "cozy"]),
       ("nature", ["nature", "green", "organic", "natural", "eco"]),
       ("creative", ["creative", "artistic", "colorful", "vibrant"])])]

/-- Field schema of the email page. -/
def emailFieldsCtx : List (String × FieldConfig) :=
  [("emailType", selectField
      ["marketing", "customer_service", "follow_up", "thank_you",
       "announcement", "invitation"]
      [("marketing", ["marketing", "promotional", "advertisement", "campaign"]),
       ("customer_service", ["support", "service", "help", "assistance", "customer"]),
       ("thank_you", ["thank", "thanks", "appreciation", "grateful"]),
       ("follow_up", ["follow up", "followup", "check in", "update"]),
       ("announcement", ["announcement", "news", "update", "information"]),
       ("invitation", ["invitation", "invite", "event", "meeting"])]),
   ("recipientType", selectField
      ["customer", "prospect", "partner"]
      [("customer", ["customer", "client", "existing", "current"]),
       ("prospect", ["prospect", "potential", "new", "lead"]),
       ("partner", ["partner", "vendor", "supplier", "collaborator"])]),
   ("emailTone", selectField
      ["professional", "friendly", "casual", "formal", "urgent"]
      [("professional", ["professional", "business"]),
       ("friendly", ["friendly", "warm", "personal"]),
       ("casual", ["casual", "informal", "relaxed"]),
       ("formal", ["formal", "official"]),
       ("urgent", ["urgent", "important", "immediate"])]),
   ("emailPurpose", textField false),
   ("emailContext", textareaField false),
   ("senderName", textField false)]

/-- Field schema of the poster page. -/
def posterFieldsCtx : List (String × FieldConfig) :=
  [("posterType", selectField
      ["promotional", "event", "product", "service", "announcement"]
      [("promotional", ["sale", "promotion", "discount", "offer", "deal"]),
       ("event", ["event", "opening", "launch", "workshop", "conference"]),
       ("product", ["product", "new product", "launch"]),
       ("service", ["service", "services"]),
       ("announcement", ["announcement", "news", "update"])]),
   ("posterTitle", textField false),
   ("posterSubtitle", textField false),
   ("posterDescription", textareaField false),
   ("businessName", textField false),
   ("colorScheme", selectField
      ["modern", "vibrant", "professional", "nature", "creative", "minimalist"] []),
   ("posterSize", selectField ["medium", "large", "a4", "social_media"] [])]

/-- The page-context table.  The sales page declares actions but no form
fields, so its schema is the empty mapping. -/
def pageContexts : List (String × PageContext) :=
  [("website", { fields := websiteFieldsCtx, auto_submit := false }),
   ("email", { fields := emailFieldsCtx, auto_submit := false }),
   ("feedback",
    { fields := [("feedbackText", textareaField true)], auto_submit := true }),
   ("poster", { fields := posterFieldsCtx, auto_submit := false }),
   ("sales", { fields := [], auto_submit := false })]

/-- page_contexts.get(page, {}).get(fields, {}): the field schema of a
page, empty for unknown pages. -/
def pageFields (page : String) : List (String × FieldConfig) :=
  ((pageContexts.lookup page).map PageContext.fields).getD []

/-- page_contexts.get(page, {}).get(auto_submit, False). -/
def pageAutoSubmit (page : String) : Bool :=
  ((pageContexts.lookup page).map PageContext.auto_submit).getD false

/-! ### Pattern handler methods -/

/-- The fixed URL table of _get_navigation_url. -/
def urlMapping : List (String × String) :=
  [("website", "/tools/website"), ("email", "/tools/email"),
   ("feedback", "/tools/feedback"), ("poster", "/tools/poster"),
   ("sales", "/tools/sales"), ("dashboard", "/dashboard"),
   ("profile", "/profile")]

/-- _get_navigation_url: lowercase and strip the name, look it up, with
/dashboard as the default for unknown names. -/
def getNavigationUrl (toolName : String) : String :=
  (urlMapping.lookup (stripStr (lowerStr toolName))).getD "/dashboard"

/-- The type_mapping table inside _extract_website_info, in dict order. -/
def websiteTypeMapping : List (String × List String) :=
  [("restaurant", ["restaurant", "cafe", "food", "dining"]),
   ("business", ["business", "company", "corporate"]),
   ("portfolio", ["portfolio", "personal"]),
   ("ecommerce", ["shop", "store", "ecommerce"]),
   ("services", ["service", "consulting"])]

/-- _extract_website_info, from groups 1 and 2 of websiteP1. -/
def extractWebsiteInfo (g1 g2 : Option String) : List (String × String) :=
  let businessDesc := stripStr (g1.getD "")
  let nameF :=
    if truthyOpt g2 then
      (if stripStr (g2.getD "") == "" then []
       else [("businessName", stripStr (g2.getD ""))])
    else []
  let descLower := lowerStr businessDesc
  let typeF :=
    match websiteTypeMapping.find?
        (fun e => e.2.any (fun kw => containsSub descLower kw)) with
    | some e => [("websiteType", e.1)]
    | none => []
  nameF ++ typeF ++ [("businessDescription", businessDesc)]

/-- _extract_website_type_info, from groups 1 and 2 of websiteP2. -/
def extractWebsiteTypeInfo (g1 g2 : Option String) : List (String × String) :=
  let websiteType := lowerStr (stripStr (g1.getD ""))
  let businessInfo := stripStr (g2.getD "")
  let typeF :=
    if containsSub websiteType "restaurant" || containsSub websiteType "food" then
      [("websiteType", "restaurant")]
    else if containsSub websiteType "business" || containsSub websiteType "corporate" then
      [("websiteType", "business")]
    else if containsSub websiteType "portfolio" || containsSub websiteType "personal" then
      [("websiteType", "portfolio")]
    else []
  [("businessDescription", businessInfo)] ++ typeF

/-- _extract_email_info, from groups 1 and 2 of emailP1. -/
def extractEmailInfo (g1 g2 : Option String) : List (String × String) :=
  let emailType := lowerStr (stripStr (g1.getD ""))
  let recipientInfo := lowerStr (stripStr (g2.getD ""))
  let etF : List (String × String) :=
    if containsSub emailType "marketing" || containsSub emailType "promotional" then
      [("emailType", "marketing")]
    else if containsSub emailType "support" || containsSub emailType "service" then
      [("emailType", "customer_service")]
    else if containsSub emailType "thank" then
      [("emailType", "thank_you")]
    else []
  let rtF : List (String × String) :=
    if containsSub recipientInfo "customer" then
      [("recipientType", "customer")]
    else if containsSub recipientInfo "prospect" || containsSub recipientInfo "potential" then
      [("recipientType", "prospect")]
    else []
  let tone :=
    if etF.lookup "emailType" == some "marketing" then "friendly"
    else "professional"
  etF ++ rtF ++ [("emailTone", tone)]

/-- _extract_email_purpose, from group 1 of emailP2. -/
def extractEmailPurpose (g1 : Option String) : List (String × String) :=
  [("emailPurpose", stripStr (g1.getD "")),
   ("emailType", "announcement"), ("emailTone", "professional")]

/-- _extract_poster_info, from groups 1 and 2 of posterP1. -/
def extractPosterInfo (g1 g2 : Option String) : List (String × String) :=
  let purpose := stripStr (g1.getD "")
  let titleF :=
    if truthyOpt g2 then
      (if stripStr (g2.getD "") == "" then []
       else [("posterTitle", stripStr (g2.getD ""))])
    else []
  let purposeLower := lowerStr purpose
  let typeF :=
    if containsSub purposeLower "sale" || containsSub purposeLower "promotion" then
      [("posterType", "promotional")]
    else if containsSub purposeLower "event" || containsSub purposeLower "opening" then
      [("posterType", "event")]
    else if containsSub purposeLower "product" then
      [("posterType", "product")]
    else []
  [("posterDescription", purpose)] ++ titleF ++ typeF

/-- _extract_poster_type_info, from groups 1 and 2 of posterP2. -/
def extractPosterTypeInfo (g1 g2 : Option String) : List (String × String) :=
  let posterType := lowerStr (stripStr (g1.getD ""))
  let typeF :=
    if containsSub posterType "promotional" || containsSub posterType "sale" then
      [("posterType", "promotional"), ("posterTitle", "Special Promotion")]
    else if containsSub posterType "event" then
      [("posterType", "event"), ("posterTitle", "Special Event")]
    else []
  let nameF :=
    if truthyOpt g2 then
      (if stripStr (g2.getD "") == "" then []
       else [("businessName", stripStr (g2.getD ""))])
    else []
  typeF ++ nameF

/-- The field_mappings table of _normalize_field_name. -/
def fieldMappings : List (String × String) :=
  [("name", "businessName"), ("business name", "businessName"),
   ("company name", "businessName"), ("title", "posterTitle"),
   ("subject", "emailPurpose"), ("description", "businessDescription"),
   ("message", "feedbackText"), ("feedback", "feedbackText"),
   ("email", "customerEmail"), ("type", "websiteType")]

/-- _normalize_field_name: lowercase, strip, map through the synonym
table, and otherwise delete spaces. -/
def normalizeFieldName (fieldName : String) : String :=
  let fn := stripStr (lowerStr fieldName)
  (fieldMappings.lookup fn).getD (removeSpaces fn)

/-! ### Transcript cleaning (_clean_transcript) -/

/-- Collapse every maximal whitespace run to a single space: the effect
of re.sub of one-or-more whitespace by a space. -/
def collapseWs : List Char → List Char
  | [] => []
  | [c] => if isSpaceP c then [' '] else [c]
  | a :: b :: rest =>
    if isSpaceP a then
      (if isSpaceP b then collapseWs (b :: rest) else ' ' :: collapseWs (b :: rest))
    else a :: collapseWs (b :: rest)

/-- The four disfluency words removed by _clean_transcript. -/
def fillerWords : List (List Char) := [['u','m'], ['u','h'], ['e','r'], ['a','h']]

/-- Is the character pair a filler word, case-insensitively? -/
def isFillerPair (a b : Char) : Bool :=
  fillerWords.contains [a.toLower, b.toLower]

/-- Left word boundary of the regex: start of string or a non-word
character before the candidate match. -/
def boundaryBefore : Option Char → Bool
  | none => true
  | some c => !isWordChar c

/-- Right word boundary: end of string or a non-word character after. -/
def boundaryAfter : List Char → Bool
  | [] => true
  | c :: _ => !isWordChar c

/-- re.sub of the whole-word filler alternation by the empty string:
leftmost non-overlapping two-character matches with word boundaries on
both sides are deleted; prev tracks the character before the scan point
in the original string. -/
def removeFillersAux (prev : Option Char) : List Char → List Char
  | [] => []
  | a :: rest =>
    match rest with
    | [] => [a]
    | b :: rest2 =>
      if isFillerPair a b && boundaryBefore prev && boundaryAfter rest2 then
        removeFillersAux (some b) rest2
      else a :: removeFillersAux (some a) (b :: rest2)

/-- _clean_transcript: early return for the empty string, then strip,
collapse whitespace runs, and remove the filler words. -/
def cleanTranscript (transcript : String) : String :=
  if transcript == "" then ""
  else String.mk (removeFillersAux none (collapseWs (pyStrip transcript.toList)))

/-! ### Tier 1: navigation patterns (_match_navigation_patterns) -/

/-- The body of the loop of _match_navigation_patterns once a pattern has
matched: compute the url from the handler argument, and return the
navigate instruction when the url is non-empty (Python truthiness),
otherwise fall through. -/
def navFromMatch (rawGroup lookupArg : String) : Option Instruction :=
  let url := getNavigationUrl lookupArg
  if url == "" then none
  else some { emptyInstruction with
    action := some "navigate", navigation := some url,
    message := "Navigating to " ++ rawGroup ++ " page..." }

/-- _match_navigation_patterns: the two navigation patterns in order;
pattern 1 passes the raw group to the url handler, pattern 2 strips it
first. -/
def matchNavigationPatterns (t : String) : Option Instruction :=
  let s := t.toList
  match (match reSearch navP1 s with
         | some g => navFromMatch ((pmGroup s g 1).getD "") ((pmGroup s g 1).getD "")
         | none => none) with
  | some i => some i
  | none =>
    match reSearch navP2 s with
    | some g =>
      navFromMatch ((pmGroup s g 1).getD "") (stripStr ((pmGroup s g 1).getD ""))
    | none => none

/-! ### Tier 2: page-specific patterns (_match_page_patterns) -/

/-- The guard of the website branch of _match_page_patterns. -/
def triedWebsite (tl p : String) : Bool :=
  p == "website" || containsSub tl "website"

/-- The guard of the email branch. -/
def triedEmail (tl p : String) : Bool :=
  p == "email" || containsSub tl "email"

/-- The guard of the feedback branch. -/
def triedFeedback (tl p : String) : Bool :=
  p == "feedback" || containsSub tl "feedback" || containsSub tl "analyze"

/-- The guard of the poster branch. -/
def triedPoster (tl p : String) : Bool :=
  p == "poster" || containsSub tl "poster" || containsSub tl "flyer"

/-- The instruction built from a website-domain match. -/
def websiteInstr (fields : List (String × String)) : Instruction :=
  { emptyInstruction with
    action := some "fill_form", fields := fields,
    tool_execution := some { tool := "website", auto_submit := some false },
    message := "Website form configured for " ++
      ((fields.lookup "businessName").getD "your business") ++ "." }

/-- The instruction built from an email-domain match. -/
def emailInstr (fields : List (String × String)) : Instruction :=
  { emptyInstruction with
    action := some "fill_form", fields := fields,
    tool_execution := some { tool := "email", auto_submit := some false },
    message := "Email form configured from your speech." }

/-- The instruction built from a feedback-domain match. -/
def feedbackInstr (fields : List (String × String)) : Instruction :=
  { emptyInstruction with
    action := some "fill_form", fields := fields,
    tool_execution := some { tool := "feedback", auto_submit := some true },
    message := "Analyzing feedback from your speech..." }

/-- The instruction built from a poster-domain match. -/
def posterInstr (fields : List (String × String)) : Instruction :=
  { emptyInstruction with
    action := some "fill_form", fields := fields,
    tool_execution := some { tool := "poster", auto_submit := some false },
    message := "Poster configured for " ++
      ((fields.lookup "posterTitle").getD "your event") ++ "." }

/-- The website branch body: the two website patterns in order. -/
def websiteDomain (t : String) : Option Instruction :=
  let s := t.toList
  match reSearch websiteP1 s with
  | some g => some (websiteInstr (extractWebsiteInfo (pmGroup s g 1) (pmGroup s g 2)))
  | none =>
    match reSearch websiteP2 s with
    | some g =>
      some (websiteInstr (extractWebsiteTypeInfo (pmGroup s g 1) (pmGroup s g 2)))
    | none => none

/-- The email branch body: the two email patterns in order. -/
def emailDomain (t : String) : Option Instruction :=
  let s := t.toList
  match reSearch emailP1 s with
  | some g => some (emailInstr (extractEmailInfo (pmGroup s g 1) (pmGroup s g 2)))
  | none =>
    match reSearch emailP2 s with
    | some g => some (emailInstr (extractEmailPurpose (pmGroup s g 1)))
    | none => none

/-- The feedback branch body: the two feedback patterns in order; both
handlers strip group 1 into feedbackText. -/
def feedbackDomain (t : String) : Option Instruction :=
  let s := t.toList
  match reSearch feedbackP1 s with
  | some g => some (feedbackInstr [("feedbackText", stripStr ((pmGroup s g 1).getD ""))])
  | none =>
    match reSearch feedbackP2 s with
    | some g => some (feedbackInstr [("feedbackText", stripStr ((pmGroup s g 1).getD ""))])
    | none => none

/-- The poster branch body: the two poster patterns in order. -/
def posterDomain (t : String) : Option Instruction :=
  let s := t.toList
  match reSearch posterP1 s with
  | some g => some (posterInstr (extractPosterInfo (pmGroup s g 1) (pmGroup s g 2)))
  | none =>
    match reSearch posterP2 s with
    | some g =>
      some (posterInstr (extractPosterTypeInfo (pmGroup s g 1) (pmGroup s g 2)))
    | none => none

/-- _match_page_patterns: the four guarded domain branches in order; a
guard that passes but whose patterns do not match falls through to the
next branch. -/
def matchPagePatterns (t tl p : String) : Option Instruction :=
  match (if triedWebsite tl p then websiteDomain t else none) with
  | some i => some i
  | none =>
    match (if triedEmail tl p then emailDomain t else none) with
    | some i => some i
    | none =>
      match (if triedFeedback tl p then feedbackDomain t else none) with
      | some i => some i
      | none => if triedPoster tl p then posterDomain t else none

/-! ### Tier 3: generic field filling (_match_field_patterns) -/

/-- The instruction built from a generic field match. -/
def fieldInstr (fields : List (String × String)) : Instruction :=
  { emptyInstruction with
    action := some "fill_form", fields := fields,
    message := "Field filled from speech input." }

/-- _match_field_patterns: the two generic patterns in order; each builds
a one-entry fields dict from the normalized group 1 and stripped group 2.
The Python method also receives the lowercased transcript but never uses
it. -/
def matchFieldPatterns (t : String) : Option Instruction :=
  let s := t.toList
  match reSearch fieldP1 s with
  | some g =>
    some (fieldInstr [(normalizeFieldName ((pmGroup s g 1).getD ""),
                       stripStr ((pmGroup s g 2).getD ""))])
  | none =>
    match reSearch fieldP2 s with
    | some g =>
      some (fieldInstr [(normalizeFieldName ((pmGroup s g 1).getD ""),
                         stripStr ((pmGroup s g 2).getD ""))])
    | none => none

/-! ### The pattern resolver (_process_with_patterns) -/

/-- The default response of _process_with_patterns when no tier
matches. -/
def defaultPatternResult : SpeechResult :=
  { success := true,
    instructions := { emptyInstruction with
      action := some "fill_form", fields := [],
      message := "Could not extract specific information from speech.",
      confidence := some 0.3 },
    confidence := none, error := none, processed_by := none,
    original_transcript := none }

/-- A successful tier result: the matched instruction with the tier
confidence at result level. -/
def tierResult (i : Instruction) (c : ℚ) : SpeechResult :=
  { success := true, instructions := i, confidence := some c,
    error := none, processed_by := none, original_transcript := none }

/-- _process_with_patterns: navigation on the lowercased transcript,
then page patterns, then generic field filling, then the default. -/
def processWithPatterns (t p : String) : SpeechResult :=
  match matchNavigationPatterns (lowerStr t) with
  | some i => tierResult i 0.8
  | none =>
    match matchPagePatterns t (lowerStr t) p with
    | some i => tierResult i 0.7
    | none =>
      match matchFieldPatterns t with
      | some i => tierResult i 0.6
      | none => defaultPatternResult

/-! ### The orchestrator (process_speech_input, _error_response) -/

/-- _error_response: failure with an error action at confidence 0. -/
def errorResponse (msg : String) : SpeechResult :=
  { success := false,
    instructions := { emptyInstruction with
      action := some "error", message := msg, confidence := some 0 },
    confidence := none, error := some msg, processed_by := none,
    original_transcript := none }

/-- process_speech_input on the deterministic path (no AI model handle):
clean the transcript, fail fast when the cleaned transcript is empty,
otherwise run the pattern resolver on the cleaned transcript and attach
the metadata. -/
def processSpeechInput (transcript page : String) : SpeechResult :=
  let ct := cleanTranscript transcript
  if ct == "" then errorResponse "Empty or invalid transcript"
  else
    let r := processWithPatterns ct page
    { r with processed_by := some "fallback", original_transcript := some ct }

/-! ### The AI-reply validator (_validate_instructions, _find_closest_option) -/

/-- _find_closest_option: case-insensitive exact match against the
options, else the first keyword-table entry that is an option and one of
whose trigger words occurs in the lowercased value, else the first
option, else the raw value when the option list is empty. -/
def findClosestOption (value : String) (options : List String)
    (keywords : List (String × List String)) : String :=
  let valueLower := lowerStr value
  match options.find? (fun o => lowerStr o == valueLower) with
  | some o => o
  | none =>
    match keywords.find? (fun e =>
        options.contains e.1 && e.2.any (fun kw => containsSub valueLower kw)) with
    | some e => e.1
    | none => options.headD value

/-- The per-entry step of the field filter of _validate_instructions:
keep the entry only when its key is in the page schema, replacing the
value of a select field that is not among the options by its closest
option. -/
def validateFieldEntry (pc : List (String × FieldConfig))
    (kv : String × String) : Option (String × String) :=
  match pc.lookup kv.1 with
  | none => none
  | some fc =>
    some (kv.1,
      if fc.ftype == "select" && !(fc.options.contains kv.2) then
        findClosestOption kv.2 fc.options fc.keywords
      else kv.2)

/-- First mutation of _validate_instructions: default an absent action
to fill_form. -/
def defaultAction (ins : Instruction) : Instruction :=
  if ins.action == none then { ins with action := some "fill_form" } else ins

/-- Second mutation: default an absent confidence to 0.7. -/
def defaultConfidence (ins : Instruction) : Instruction :=
  if ins.confidence == none then { ins with confidence := some 0.7 } else ins

/-- Third mutation: for fill_form actions, filter the fields against the
page schema. -/
def filterFields (page : String) (ins : Instruction) : Instruction :=
  if ins.action == some "fill_form" then
    { ins with fields := ins.fields.filterMap (validateFieldEntry (pageFields page)) }
  else ins

/-- Fourth mutation: default a present tool_execution block's absent
auto_submit flag from the page context. -/
def defaultAutoSubmit (page : String) (ins : Instruction) : Instruction :=
  match ins.tool_execution with
  | some te =>
    if te.auto_submit == none then
      { ins with tool_execution := some (ToolExecution.mk te.tool (some (pageAutoSubmit page))) }
    else ins
  | none => ins

/-- _validate_instructions: the four in-place dict mutations of the
Python method, applied in order. -/
def validateInstructions (ins : Instruction) (page : String) : Instruction :=
  defaultAutoSubmit page (filterFields page (defaultConfidence (defaultAction ins)))

/-! ### Auxiliary definitions used only by the specification statements -/

/-- The URLs of the navigation table (its value column). -/
def urlValues : List String := urlMapping.map Prod.snd

/-- Does the list contain two consecutive whitespace characters? -/
def hasDoubleWs : List Char → Bool
  | a :: b :: r => (isSpaceP a && isSpaceP b) || hasDoubleWs (b :: r)
  | _ => false

/-- The website guard as worded by the specification: page equals the
domain or the transcript contains a domain keyword, website or site. -/
def specTriedWebsite (tl p : String) : Bool :=
  p == "website" || containsSub tl "website" || containsSub tl "site"

/-- The email guard as worded by the specification: keywords email or
mail. -/
def specTriedEmail (tl p : String) : Bool :=
  p == "email" || containsSub tl "email" || containsSub tl "mail"

/-- The feedback guard as worded by the specification: keywords feedback,
review or analyze. -/
def specTriedFeedback (tl p : String) : Bool :=
  p == "feedback" || containsSub tl "feedback" || containsSub tl "review" ||
    containsSub tl "analyze"

/-- The poster guard as worded by the specification: keywords poster or
flyer. -/
def specTriedPoster (tl p : String) : Bool :=
  p == "poster" || containsSub tl "poster" || containsSub tl "flyer"

/-! ## Helper lemmas -/

/-- A value found by an association-list lookup is one of the values of
the list. -/
theorem lookup_mem_vals {l : List (String × String)} {k v : String}
    (h : l.lookup k = some v) : v ∈ l.map Prod.snd := by
  induction l with
  | nil => cases h
  | cons a rest ih =>
    cases a with
    | mk k2 v2 =>
      by_cases hk : k == k2
      · simp [List.lookup, hk] at h
        simp [h]
      · simp [List.lookup, hk] at h
        exact List.mem_cons_of_mem _ (ih h)

/-- Every url the navigation handler can produce is a value of the fixed
table (the unknown-name default /dashboard included, since dashboard is a
table entry). -/
theorem getNavigationUrl_mem (s : String) : getNavigationUrl s ∈ urlValues := by
  unfold getNavigationUrl urlValues
  cases h : urlMapping.lookup (stripStr (lowerStr s)) with
  | none => decide
  | some v => simpa using lookup_mem_vals h

/-- Shape of a navigation-loop result: no instruction-level confidence,
and the navigation target is the handler url of the looked-up name. -/
theorem navFromMatch_shape (r l : String) (i : Instruction)
    (h : navFromMatch r l = some i) :
    i.confidence = none ∧ i.navigation = some (getNavigationUrl l) := by
  simp only [navFromMatch] at h
  split at h
  · exact Option.noConfusion h
  · injection h with h2
    subst h2
    exact ⟨rfl, rfl⟩

/-- Shape of a navigation-tier match: no instruction-level confidence,
and the navigation target is a value of the url table. -/
theorem matchNavigationPatterns_shape (t : String) (i : Instruction)
    (h : matchNavigationPatterns t = some i) :
    i.confidence = none ∧ (i.navigation.getD "") ∈ urlValues := by
  simp only [matchNavigationPatterns] at h
  split at h
  · rename_i heq
    split at heq
    · injection h with h2
      subst h2
      rcases navFromMatch_shape _ _ _ heq with ⟨h1, h2⟩
      exact ⟨h1, by rw [h2]; exact getNavigationUrl_mem _⟩
    · exact Option.noConfusion heq
  · split at h
    · rcases navFromMatch_shape _ _ _ h with ⟨h1, h2⟩
      exact ⟨h1, by rw [h2]; exact getNavigationUrl_mem _⟩
    · exact Option.noConfusion h

/-- Shape of a website-domain match. -/
theorem websiteDomain_shape (t : String) (i : Instruction)
    (h : websiteDomain t = some i) :
    i.confidence = none ∧
    i.tool_execution = some { tool := "website", auto_submit := some false } := by
  simp only [websiteDomain] at h
  split at h
  · injection h with h2
    subst h2
    exact ⟨rfl, rfl⟩
  · split at h
    · injection h with h2
      subst h2
      exact ⟨rfl, rfl⟩
    · exact Option.noConfusion h

/-- Shape of an email-domain match. -/
theorem emailDomain_shape (t : String) (i : Instruction)
    (h : emailDomain t = some i) :
    i.confidence = none ∧
    i.tool_execution = some { tool := "email", auto_submit := some false } := by
  simp only [emailDomain] at h
  split at h
  · injection h with h2
    subst h2
    exact ⟨rfl, rfl⟩
  · split at h
    · injection h with h2
      subst h2
      exact ⟨rfl, rfl⟩
    · exact Option.noConfusion h

/-- Shape of a feedback-domain match. -/
theorem feedbackDomain_shape (t : String) (i : Instruction)
    (h : feedbackDomain t = some i) :
    i.confidence = none ∧
    i.tool_execution = some { tool := "feedback", auto_submit := some true } := by
  simp only [feedbackDomain] at h
  split at h
  · injection h with h2
    subst h2
    exact ⟨rfl, rfl⟩
  · split at h
    · injection h with h2
      subst h2
      exact ⟨rfl, rfl⟩
    · exact Option.noConfusion h

/-- Shape of a poster-domain match. -/
theorem posterDomain_shape (t : String) (i : Instruction)
    (h : posterDomain t = some i) :
    i.confidence = none ∧
    i.tool_execution = some { tool := "poster", auto_submit := some false } := by
  simp only [posterDomain] at h
  split at h
  · injection h with h2
    subst h2
    exact ⟨rfl, rfl⟩
  · split at h
    · injection h with h2
      subst h2
      exact ⟨rfl, rfl⟩
    · exact Option.noConfusion h

/-- Shape of a page-tier match: no instruction-level confidence, and the
tool block is one of the four fixed blocks of the domain branches. -/
theorem matchPagePatterns_shape (t tl p : String) (i : Instruction)
    (h : matchPagePatterns t tl p = some i) :
    i.confidence = none ∧
    (i.tool_execution = some { tool := "website", auto_submit := some false } ∨
     i.tool_execution = some { tool := "email", auto_submit := some false } ∨
     i.tool_execution = some { tool := "feedback", auto_submit := some true } ∨
     i.tool_execution = some { tool := "poster", auto_submit := some false }) := by
  simp only [matchPagePatterns] at h
  split at h
  · rename_i heq
    split at heq
    · injection h with h2
      subst h2
      rcases websiteDomain_shape _ _ heq with ⟨h1, h2⟩
      exact ⟨h1, Or.inl h2⟩
    · exact Option.noConfusion heq
  · split at h
    · rename_i heq
      split at heq
      · injection h with h2
        subst h2
        rcases emailDomain_shape _ _ heq with ⟨h1, h2⟩
        exact ⟨h1, Or.inr (Or.inl h2)⟩
      · exact Option.noConfusion heq
    · split at h
      · rename_i heq
        split at heq
        · injection h with h2
          subst h2
          rcases feedbackDomain_shape _ _ heq with ⟨h1, h2⟩
          exact ⟨h1, Or.inr (Or.inr (Or.inl h2))⟩
        · exact Option.noConfusion heq
      · split at h
        · rcases posterDomain_shape _ _ h with ⟨h1, h2⟩
          exact ⟨h1, Or.inr (Or.inr (Or.inr h2))⟩
        · exact Option.noConfusion h

/-- Shape of a field-tier match: no instruction-level confidence. -/
theorem matchFieldPatterns_shape (t : String) (i : Instruction)
    (h : matchFieldPatterns t = some i) : i.confidence = none := by
  simp only [matchFieldPatterns] at h
  split at h
  · injection h with h2
    subst h2
    rfl
  · split at h
    · injection h with h2
      subst h2
      rfl
    · exact Option.noConfusion h

/-- The pattern resolver always reports success. -/
theorem processWithPatterns_success (t p : String) :
    (processWithPatterns t p).success = true := by
  unfold processWithPatterns
  cases matchNavigationPatterns (lowerStr t) with
  | some i => rfl
  | none =>
    cases matchPagePatterns t (lowerStr t) p with
    | some i => rfl
    | none =>
      cases matchFieldPatterns t with
      | some i => rfl
      | none => rfl

/-! ## Claim theorems -/

/-- C3: for every transcript and page the pattern resolver returns a
successful result, every confidence value it carries (result level or
instruction level) lies in [0,1], and when no tier matches the result is
exactly the default: action fill_form, empty fields, confidence 0.3 and
the could-not-extract message. -/
theorem C3_patterns_total_and_default (t p : String) :
    (processWithPatterns t p).success = true ∧
    (∀ c : ℚ, ((processWithPatterns t p).confidence = some c ∨
        (processWithPatterns t p).instructions.confidence = some c) →
      0 ≤ c ∧ c ≤ 1) ∧
    (matchNavigationPatterns (lowerStr t) = none →
      matchPagePatterns t (lowerStr t) p = none →
      matchFieldPatterns t = none →
      processWithPatterns t p = defaultPatternResult) := by
  refine ⟨processWithPatterns_success t p, ?_, ?_⟩
  · intro c hc
    rcases h1 : matchNavigationPatterns (lowerStr t) with _ | i1
    · rcases h2 : matchPagePatterns t (lowerStr t) p with _ | i2
      · rcases h3 : matchFieldPatterns t with _ | i3
        · have he : processWithPatterns t p = defaultPatternResult := by
            simp [processWithPatterns, h1, h2, h3]
          rw [he] at hc
          rcases hc with hc | hc
          · exact absurd hc (by simp [defaultPatternResult])
          · have : c = 0.3 := by
              have := hc.symm
              simpa [defaultPatternResult] using this
            rw [this]
            norm_num
        · have he : processWithPatterns t p = tierResult i3 0.6 := by
            simp [processWithPatterns, h1, h2, h3]
          rw [he] at hc
          rcases hc with hc | hc
          · have : c = 0.6 := by
              have := hc.symm
              simpa [tierResult] using this
            rw [this]
            norm_num
          · rw [show (tierResult i3 0.6).instructions = i3 from rfl,
              matchFieldPatterns_shape t i3 h3] at hc
            exact absurd hc (by simp)
      · have he : processWithPatterns t p = tierResult i2 0.7 := by
          simp [processWithPatterns, h1, h2]
        rw [he] at hc
        rcases hc with hc | hc
        · have : c = 0.7 := by
            have := hc.symm
            simpa [tierResult] using this
          rw [this]
          norm_num
        · rw [show (tierResult i2 0.7).instructions = i2 from rfl,
            (matchPagePatterns_shape t (lowerStr t) p i2 h2).1] at hc
          exact absurd hc (by simp)
    · have he : processWithPatterns t p = tierResult i1 0.8 := by
        simp [processWithPatterns, h1]
      rw [he] at hc
      rcases hc with hc | hc
      · have : c = 0.8 := by
          have := hc.symm
          simpa [tierResult] using this
        rw [this]
        norm_num
      · rw [show (tierResult i1 0.8).instructions = i1 from rfl,
          (matchNavigationPatterns_shape (lowerStr t) i1 h1).1] at hc
        exact absurd hc (by simp)
  · intro h1 h2 h3
    simp [processWithPatterns, h1, h2, h3]

/-- C3 witness: on a transcript and page where no tier matches, the
resolver returns exactly the default result. -/
theorem C3_witness :
    processWithPatterns "hello" "unknown" = defaultPatternResult :=
  (C3_patterns_total_and_default "hello" "unknown").2.2 (by decide) (by decide)
    (by decide)

/-- C4: the resolver tries its tiers in the fixed order navigation,
page-specific, generic field filling, default, with the first matching
tier winning; the confidence is the fixed ladder 0.8, 0.7, 0.6 tied to
the matched tier, and the default carries 0.3. -/
theorem C4_tier_order_confidence_ladder (t p : String) :
    (∀ i, matchNavigationPatterns (lowerStr t) = some i →
      processWithPatterns t p = tierResult i 0.8) ∧
    (matchNavigationPatterns (lowerStr t) = none →
      ∀ i, matchPagePatterns t (lowerStr t) p = some i →
        processWithPatterns t p = tierResult i 0.7) ∧
    (matchNavigationPatterns (lowerStr t) = none →
      matchPagePatterns t (lowerStr t) p = none →
      ∀ i, matchFieldPatterns t = some i →
        processWithPatterns t p = tierResult i 0.6) ∧
    (matchNavigationPatterns (lowerStr t) = none →
      matchPagePatterns t (lowerStr t) p = none →
      matchFieldPatterns t = none →
      processWithPatterns t p = defaultPatternResult ∧
      defaultPatternResult.instructions.confidence = some 0.3) := by
  refine ⟨?_, ?_, ?_, ?_⟩
  · intro i h1
    simp [processWithPatterns, h1]
  · intro h1 i h2
    simp [processWithPatterns, h1, h2]
  · intro h1 h2 i h3
    simp [processWithPatterns, h1, h2, h3]
  · intro h1 h2 h3
    exact ⟨by simp [processWithPatterns, h1, h2, h3], rfl⟩

/-- C4 witness: a concrete navigation command resolves through the
navigation tier at confidence 0.8. -/
theorem C4_witness :
    processWithPatterns "go to email" "dashboard" =
      tierResult { emptyInstruction with
        action := some "navigate", navigation := some "/tools/email",
        message := "Navigating to email page..." } 0.8 :=
  (C4_tier_order_confidence_ladder "go to email" "dashboard").1 _ (by decide)

/-- C7: every instruction produced by the page-specific tier carries a
tool block whose auto_submit flag is true exactly for the feedback
domain: feedback matches auto-submit, website, email and poster matches
do not. -/
theorem C7_auto_submit_by_domain (t tl p : String) (i : Instruction)
    (te : ToolExecution) (h : matchPagePatterns t tl p = some i)
    (hte : i.tool_execution = some te) :
    te.auto_submit = some (te.tool == "feedback") := by
  rcases (matchPagePatterns_shape t tl p i h).2 with h2 | h2 | h2 | h2 <;>
    rw [h2] at hte <;> injection hte with hte <;> subst hte <;> rfl

/-- C7 witness: a concrete feedback-domain match auto-submits. -/
theorem C7_witness :
    ({ tool := "feedback", auto_submit := some true } : ToolExecution).auto_submit =
      some (({ tool := "feedback", auto_submit := some true } : ToolExecution).tool
        == "feedback") :=
  C7_auto_submit_by_domain "analyze this feedback: bad"
    "analyze this feedback: bad" "feedback"
    (feedbackInstr [("feedbackText", "bad")])
    { tool := "feedback", auto_submit := some true } (by decide) (by decide)

/-- An entry surviving the field filter has its key in the page schema. -/
theorem validateFieldEntry_mem (pc : List (String × FieldConfig))
    (l : List (String × String)) (k v : String)
    (h : (k, v) ∈ l.filterMap (validateFieldEntry pc)) :
    (pc.lookup k).isSome = true := by
  rcases List.mem_filterMap.mp h with ⟨kv, _, hf⟩
  unfold validateFieldEntry at hf
  split at hf
  · exact Option.noConfusion hf
  · rename_i fc heq
    injection hf with hf2
    have hk : kv.1 = k := congrArg Prod.fst hf2
    rw [← hk, heq]
    rfl

/-- For fill_form instructions (or ones whose absent action defaults to
fill_form) the validator replaces the fields dict by its filtered form. -/
theorem validateInstructions_fields (ins : Instruction) (page : String)
    (h : ins.action = none ∨ ins.action = some "fill_form") :
    (validateInstructions ins page).fields =
      ins.fields.filterMap (validateFieldEntry (pageFields page)) := by
  have hact : (defaultAction ins).action = some "fill_form" := by
    unfold defaultAction
    split
    · rfl
    · rename_i hcond
      rcases h with h | h
      · exact absurd (by simp [h]) hcond
      · exact h
  have hfld : (defaultAction ins).fields = ins.fields := by
    unfold defaultAction
    split <;> rfl
  have hact2 : (defaultConfidence (defaultAction ins)).action = some "fill_form" := by
    unfold defaultConfidence
    split <;> simpa using hact
  have hfld2 : (defaultConfidence (defaultAction ins)).fields = ins.fields := by
    unfold defaultConfidence
    split <;> simpa using hfld
  have hfld3 : (filterFields page (defaultConfidence (defaultAction ins))).fields =
      ins.fields.filterMap (validateFieldEntry (pageFields page)) := by
    unfold filterFields
    rw [if_pos (by simp [hact2])]
    exact congrArg (List.filterMap (validateFieldEntry (pageFields page))) hfld2
  unfold validateInstructions defaultAutoSubmit
  split
  · split
    · simpa using hfld3
    · exact hfld3
  · exact hfld3

/-- C1 amended: every key surviving the validation of an AI reply lies in
the page schema (the pattern-based resolver gives no such guarantee: see
the counterexample). -/
theorem C1_amended_valid_fields_in_schema (ins : Instruction) (page : String)
    (h : ins.action = none ∨ ins.action = some "fill_form") :
    ∀ k v, (k, v) ∈ (validateInstructions ins page).fields →
      ((pageFields page).lookup k).isSome = true := by
  intro k v hm
  rw [validateInstructions_fields ins page h] at hm
  exact validateFieldEntry_mem _ _ _ _ hm

/-- C1 counterexample: the generic field tier of the pattern resolver
passes the unknown key foo straight through on the website page, so the
claimed schema-membership invariant fails for the pattern-based
resolver. -/
theorem C1_counterexample :
    (processWithPatterns "my foo is bar" "website").instructions.fields =
      [("foo", "bar")] ∧
    (pageFields "website").lookup "foo" = none := by decide

/-- C1 witness: a known key survives validation on the website page. -/
theorem C1_witness :
    ((pageFields "website").lookup "businessName").isSome = true :=
  C1_amended_valid_fields_in_schema
    { emptyInstruction with
      action := some "fill_form", fields := [("businessName", "X"), ("bogus", "y")] }
    "website" (Or.inr rfl) "businessName" "X" (by decide)

/-- C2 counterexample: the captured name foobar is not a key of the url
table, yet the navigation tier matches and navigates to the default
/dashboard instead of falling through. -/
theorem C2_counterexample :
    urlMapping.lookup "foobar" = none ∧
    matchNavigationPatterns "show me the foobar tool" =
      some { emptyInstruction with
        action := some "navigate", navigation := some "/dashboard",
        message := "Navigating to foobar page..." } := by decide

/-- C2 amended: a captured name outside the table maps to the /dashboard
default rather than falling through, and every navigate instruction the
tier produces targets one of the table urls. -/
theorem C2_amended_navigation_url_range :
    (∀ name : String,
      urlMapping.lookup (stripStr (lowerStr name)) = none →
      getNavigationUrl name = "/dashboard") ∧
    (∀ t i, matchNavigationPatterns t = some i →
      (i.navigation.getD "") ∈ urlValues) := by
  constructor
  · intro name h
    unfold getNavigationUrl
    rw [h]
    rfl
  · intro t i h
    exact (matchNavigationPatterns_shape t i h).2

/-- C2 witness: the unknown name foobar resolves to /dashboard. -/
theorem C2_witness : getNavigationUrl "foobar" = "/dashboard" :=
  C2_amended_navigation_url_range.1 "foobar" (by decide)

/-- C5 counterexample: the spec keywords review (feedback domain) and
site (website domain) do not make the code try those domains, although
the second feedback pattern would match the review transcript; the guard
predicates of the code and of the claim disagree on these inputs. -/
theorem C5_counterexample :
    triedFeedback "sentiment: bad service review" "dashboard" = false ∧
    specTriedFeedback "sentiment: bad service review" "dashboard" = true ∧
    (reSearch feedbackP2 ("sentiment: bad service review").toList).isSome = true ∧
    matchPagePatterns "sentiment: bad service review"
      "sentiment: bad service review" "dashboard" = none ∧
    triedWebsite "fill the site with info" "dashboard" = false ∧
    specTriedWebsite "fill the site with info" "dashboard" = true := by decide

/-- C5 amended: a domain's patterns are tried exactly when the declared
page equals the domain or the transcript contains the domain keyword of
the code (website; email; feedback or analyze; poster or flyer), and when
no guard passes the page tier yields nothing. -/
theorem C5_amended_domain_guards (tl p : String) :
    (triedWebsite tl p = true ↔ (p = "website" ∨ containsSub tl "website" = true)) ∧
    (triedEmail tl p = true ↔ (p = "email" ∨ containsSub tl "email" = true)) ∧
    (triedFeedback tl p = true ↔
      (p = "feedback" ∨ containsSub tl "feedback" = true ∨
        containsSub tl "analyze" = true)) ∧
    (triedPoster tl p = true ↔
      (p = "poster" ∨ containsSub tl "poster" = true ∨
        containsSub tl "flyer" = true)) ∧
    (∀ t, triedWebsite tl p = false → triedEmail tl p = false →
      triedFeedback tl p = false → triedPoster tl p = false →
      matchPagePatterns t tl p = none) := by
  refine ⟨?_, ?_, ?_, ?_, ?_⟩
  · simp [triedWebsite]
  · simp [triedEmail]
  · simp [triedFeedback, or_assoc]
  · simp [triedPoster, or_assoc]
  · intro t h1 h2 h3 h4
    simp [matchPagePatterns, h1, h2, h3, h4]

/-- C5 witness: with no guard keyword and an unrelated page, the page
tier yields nothing. -/
theorem C5_witness :
    matchPagePatterns "hello there" "hello there" "dashboard" = none :=
  (C5_amended_domain_guards "hello there" "dashboard").2.2.2.2 "hello there"
    (by decide) (by decide) (by decide) (by decide)

/-- C6: the empty transcript fails fast with the empty-transcript error
without reaching any resolver, and an empty cleaned transcript is the
only way the orchestrator reports failure. -/
theorem C6_empty_transcript_fails_fast (t p : String) :
    processSpeechInput "" p = errorResponse "Empty or invalid transcript" ∧
    ((processSpeechInput t p).success = false ↔ cleanTranscript t = "") := by
  constructor
  · rfl
  · by_cases h : cleanTranscript t = ""
    · simp only [processSpeechInput, h]
      simp [errorResponse]
    · have hb : (cleanTranscript t == "") = false := by simp [h]
      have hs : (processSpeechInput t p).success = true := by
        simp only [processSpeechInput, hb, Bool.false_eq_true, if_false]
        exact processWithPatterns_success _ _
      rw [hs]
      simp [h]

/-- C6 witness: a transcript that cleans to the empty string reports
failure. -/
theorem C6_witness : (processSpeechInput "um" "website").success = false :=
  (C6_empty_transcript_fails_fast "um" "website").2.mpr (by decide)

/-- C8: the closest-option resolution ladder of the validator: a
case-insensitive exact match wins, else the first keyword-table entry
that is an option with a trigger word occurring in the value, else the
first declared option; with a non-empty option list the result is always
one of the options, never the raw string (unless it is itself an
option). -/
theorem C8_find_closest_option_ladder (v : String) (opts : List String)
    (kws : List (String × List String)) :
    (opts ≠ [] → findClosestOption v opts kws ∈ opts) ∧
    (∀ o, opts.find? (fun o2 => lowerStr o2 == lowerStr v) = some o →
      findClosestOption v opts kws = o) ∧
    (opts.find? (fun o2 => lowerStr o2 == lowerStr v) = none →
      ∀ e, kws.find? (fun e2 => opts.contains e2.1 &&
          e2.2.any (fun kw => containsSub (lowerStr v) kw)) = some e →
        findClosestOption v opts kws = e.1) ∧
    (opts.find? (fun o2 => lowerStr o2 == lowerStr v) = none →
      kws.find? (fun e2 => opts.contains e2.1 &&
          e2.2.any (fun kw => containsSub (lowerStr v) kw)) = none →
      findClosestOption v opts kws = opts.headD v) := by
  refine ⟨?_, ?_, ?_, ?_⟩
  · intro hne
    simp only [findClosestOption]
    split
    · rename_i o heq
      exact List.mem_of_find?_eq_some heq
    · split
      · rename_i e heq
        have hp := List.find?_some heq
        rw [Bool.and_eq_true] at hp
        exact List.mem_of_elem_eq_true hp.1
      · cases opts with
        | nil => exact absurd rfl hne
        | cons o os => exact List.mem_cons_self _ _
  · intro o heq
    simp only [findClosestOption, heq]
  · intro h1 e h2
    simp only [findClosestOption, h1, h2]
  · intro h1 h2
    simp only [findClosestOption, h1, h2]

/-- C8 witness: the spec example: an out-of-vocabulary colorScheme value
falls back to the first declared option. -/
theorem C8_witness :
    findClosestOption "purple-ish"
      ["professional", "modern", "warm", "nature", "creative"]
      [("professional", ["professional", "business", "corporate", "formal"]),
       ("modern", ["modern", "contemporary", "sleek", "minimalist"]),
       ("warm", ["warm", "friendly", "welcoming", "cozy"]),
       ("nature", ["nature", "green", "organic", "natural", "eco"]),
       ("creative", ["creative", "artistic", "colorful", "vibrant"])] =
    (["professional", "modern", "warm", "nature", "creative"]).headD "purple-ish" :=
  (C8_find_closest_option_ladder "purple-ish" _ _).2.2.2 (by decide) (by decide)

/-- The whitespace-collapsing pass never leaves two consecutive
whitespace characters. -/
theorem collapseWs_no_doubleWs (l : List Char) :
    hasDoubleWs (collapseWs l) = false := by
  induction l with
  | nil => rfl
  | cons a rest ih =>
    by_cases ha : isSpaceP a = true
    · cases rest with
      | nil => simp [collapseWs, ha, hasDoubleWs]
      | cons b rest2 =>
        by_cases hb : isSpaceP b = true
        · rw [show collapseWs (a :: b :: rest2) = collapseWs (b :: rest2) from by
            simp [collapseWs, ha, hb]]
          exact ih
        · have hcb : collapseWs (b :: rest2) = b :: collapseWs rest2 := by
            cases rest2 with
            | nil => simp [collapseWs, hb]
            | cons c r3 => simp [collapseWs, hb]
          rw [show collapseWs (a :: b :: rest2) = ' ' :: collapseWs (b :: rest2) from by
            simp [collapseWs, ha, hb]]
          rw [hcb]
          simp only [hasDoubleWs]
          rw [show isSpaceP b = false from by simpa using hb]
          simp only [Bool.and_false, Bool.false_or]
          rw [← hcb]
          exact ih
    · have hca : collapseWs (a :: rest) = a :: collapseWs rest := by
        cases rest with
        | nil => simp [collapseWs, ha]
        | cons b r2 => simp [collapseWs, ha]
      rw [hca]
      cases hc : collapseWs rest with
      | nil => rfl
      | cons c r2 =>
        simp only [hasDoubleWs]
        rw [show isSpaceP a = false from by simpa using ha]
        simp only [Bool.false_and, Bool.false_or]
        rw [← hc]
        exact ih

/-- C9 amended: the normalizer strips the ends and collapses whitespace
runs first (the intermediate form has no double whitespace) and only then
deletes the whole-word disfluencies in place, so the final output can
contain double spaces or boundary spaces; the empty string returns
unchanged. -/
theorem C9_amended_clean_transcript_pipeline (s : String) :
    cleanTranscript "" = "" ∧
    cleanTranscript s =
      String.mk (removeFillersAux none (collapseWs (pyStrip s.toList))) ∧
    hasDoubleWs (collapseWs (pyStrip s.toList)) = false := by
  refine ⟨rfl, ?_, collapseWs_no_doubleWs _⟩
  by_cases h : s = ""
  · subst h
    rfl
  · have hb : (s == "") = false := by simp [h]
    simp [cleanTranscript, hb]

/-- C9 counterexample: removing a disfluency after whitespace collapsing
leaves a double space, so the output of the normalizer does not have
single-space internal runs as claimed. -/
theorem C9_counterexample :
    cleanTranscript "hello um world" = "hello  world" ∧
    containsSub (cleanTranscript "hello um world") "  " = true := by decide

/-- C10: a transcript of filler words only cleans to a non-empty
whitespace string, so the orchestrator does not fail fast on it and
proceeds to pattern resolution (ending in the default instruction). -/
theorem C10_filler_only_transcript_proceeds :
    cleanTranscript "um uh" = " " ∧
    (processSpeechInput "um uh" "website").success = true ∧
    (processSpeechInput "um uh" "website").error = none ∧
    (processSpeechInput "um uh" "website").instructions.action =
      some "fill_form" := by decide

end BrandBloom
